import Mathlib

/-!
# Verification of the robinhood-mcp accessor and session layers

A shallow embedding of `src/robinhood_mcp/tools.py`, `src/robinhood_mcp/auth.py`
and `src/robinhood_mcp/server.py`.

Python values returned by the external `robin_stocks` client are modelled by
`PyVal` (null, booleans, numbers, strings, lists, dicts).  An external call is
modelled by an oracle of type `... → Except String PyVal`: `.error msg` stands
for the call raising a generic exception whose text is `msg`, `.ok v` for the
call returning `v`.  The two exception classes of the program
(`AuthenticationError` in auth.py, `RobinhoodError` in tools.py/server.py) are
the two constructors of `PyErr`.

Each embedded function also reports the list of external calls it issued
(`ExtCall`), in order, so that claims about which calls are attempted and with
which arguments can be stated directly.

Python string operations used by the code (`str.upper`, `str.strip`,
`str.lower`, the `in` substring test) are embedded over `String.data`; the
case mapping is the ASCII one (codepoints 97–122 map down by 32), and the
whitespace class is the ASCII one (space, tab, LF, VT, FF, CR).
-/

namespace RobinhoodMCP

/-- A Python value, as far as the program inspects one: the code only ever
distinguishes null / truthiness / list / dict. -/
inductive PyVal where
  | none
  | bool (b : Bool)
  | int (n : Int)
  | str (s : String)
  | list (xs : List PyVal)
  | dict (pairs : List (String × PyVal))

/-- `v is None` in Python. -/
def PyVal.isNone : PyVal → Bool
  | .none => true
  | _ => false

/-- `isinstance(v, list)` in Python. -/
def PyVal.isList : PyVal → Bool
  | .list _ => true
  | _ => false

/-- `isinstance(v, dict)` in Python. -/
def PyVal.isDict : PyVal → Bool
  | .dict _ => true
  | _ => false

/-- Python truthiness of a value (`bool(v)`). -/
def pyTruthy : PyVal → Bool
  | .none => false
  | .bool b => b
  | .int n => n != 0
  | .str s => s != ""
  | .list xs => !xs.isEmpty
  | .dict ps => !ps.isEmpty

/-- The two exception classes of the program: `auth` is `AuthenticationError`
(auth.py), `query` is `RobinhoodError` (tools.py / server.py). -/
inductive PyErr where
  | auth (msg : String)
  | query (msg : String)

/-- The message carried by an exception (`str(e)`). -/
def PyErr.msg : PyErr → String
  | .auth m => m
  | .query m => m

/-- External calls the program can issue, with the arguments it passed. -/
inductive ExtCall where
  | watchlistByName (name : String)
  | quotes (symbol : String)
  | fundamentals (symbol : String)
  | historicals (symbol interval span : String)
  | instrumentsBySymbols (query : String)
  | findInstrumentData (query : String)
  | loginCall (username password : String) (mfaCode : Option String)
  | accountProfile

/-! ## Python string primitives -/

/-- ASCII case mapping used by `str.upper()`: a lowercase ASCII letter
(codepoint 97–122) maps 32 codepoints down, everything else is unchanged. -/
def pyCharUpper (c : Char) : Char :=
  if 97 ≤ c.toNat ∧ c.toNat ≤ 122 then Char.ofNat (c.toNat - 32) else c

/-- ASCII whitespace, the class stripped by `str.strip()`:
space, tab, LF, VT, FF, CR. -/
def pyIsSpace (c : Char) : Bool :=
  decide (c.toNat = 32 ∨ c.toNat = 9 ∨ c.toNat = 10 ∨ c.toNat = 11 ∨
    c.toNat = 12 ∨ c.toNat = 13)

/-- `s.upper()` on the character list of a string. -/
def pyUpperData (l : List Char) : List Char := l.map pyCharUpper

/-- `s.strip()` on the character list of a string: drop whitespace from the
left, then from the right. -/
def pyStripData (l : List Char) : List Char :=
  (l.dropWhile pyIsSpace).rdropWhile pyIsSpace

/-- `s.upper()`. -/
def pyUpperStr (s : String) : String := ⟨pyUpperData s.data⟩

/-- `s.strip()`. -/
def pyStripStr (s : String) : String := ⟨pyStripData s.data⟩

/-- The symbol normalization performed by every symbol-taking accessor in
tools.py: `symbol.upper().strip()` (tools.py line 84 and analogues). -/
def normalizeSymbol (s : String) : String := pyStripStr (pyUpperStr s)

/-- Python's substring test `needle in hay`, executably: some tail of `hay`
starts with `needle`. -/
def strContains (hay needle : String) : Bool :=
  hay.data.tails.any (fun t => needle.data.isPrefixOf t)

/-- `s.lower()` (ASCII case mapping, inverse direction of `pyCharUpper`). -/
def pyCharLower (c : Char) : Char :=
  if 65 ≤ c.toNat ∧ c.toNat ≤ 90 then Char.ofNat (c.toNat + 32) else c

/-- `s.lower()`. -/
def pyLowerStr (s : String) : String := ⟨s.data.map pyCharLower⟩

/-- Specification-side predicate: `needle` occurs as a substring of `hay`.
Used to state the "message mentions ..." parts of the claims. -/
def mentions (hay needle : String) : Prop :=
  ∃ p q : String, hay = p ++ needle ++ q

/-! ## tools.py -/

/-- `_safe_call` (tools.py lines 14–36): run the external call; a null result
raises `RobinhoodError("API returned None - ...")`, any other exception is
wrapped as `RobinhoodError("API call failed: ...")`. -/
def safe_call (ext : Except String PyVal) : Except PyErr PyVal :=
  match ext with
  | .ok v =>
    if v.isNone then
      .error (.query "API returned None - you may need to login first")
    else .ok v
  | .error e => .error (.query ("API call failed: " ++ e))

/-- `get_watchlist` (tools.py lines 59–69): one `_safe_call` to
`get_watchlist_by_name(name=name)`, then a non-list result becomes `[]`. -/
def get_watchlist (name : String) (ext : String → Except String PyVal) :
    Except PyErr PyVal × List ExtCall :=
  let r :=
    match safe_call (ext name) with
    | .error e => .error e
    | .ok v => .ok (if v.isList then v else .list [])
  (r, [.watchlistByName name])

/-- `get_quote` (tools.py lines 72–89): reject an empty symbol, normalize it,
one `_safe_call` to `get_quotes`, unwrap the first element of a non-empty
list, otherwise raise "No quote found for symbol: ...". -/
def get_quote (symbol : String) (ext : String → Except String PyVal) :
    Except PyErr PyVal × List ExtCall :=
  if symbol = "" then
    (.error (.query "Symbol must be a non-empty string"), [])
  else
    let sym := normalizeSymbol symbol
    let r :=
      match safe_call (ext sym) with
      | .error e => .error e
      | .ok (.list (x :: _)) => .ok x
      | .ok _ => .error (.query ("No quote found for symbol: " ++ sym))
    (r, [.quotes sym])

/-- The interval whitelist of `get_historicals` (tools.py line 132). -/
def valid_intervals : List String := ["5minute", "10minute", "hour", "day", "week"]

/-- The span whitelist of `get_historicals` (tools.py line 133). -/
def valid_spans : List String := ["day", "week", "month", "3month", "year", "5year"]

/-- `get_historicals` (tools.py lines 112–141): reject an empty symbol,
normalize it, check interval then span against the whitelists, one
`_safe_call` to `get_stock_historicals`, non-list result becomes `[]`.
(The Python message interpolates a set literal whose rendering order is
unspecified; the model renders the allowed values in declaration order.) -/
def get_historicals (symbol interval span : String)
    (ext : String → String → String → Except String PyVal) :
    Except PyErr PyVal × List ExtCall :=
  if symbol = "" then
    (.error (.query "Symbol must be a non-empty string"), [])
  else
    let sym := normalizeSymbol symbol
    if !(valid_intervals.contains interval) then
      (.error (.query
        "Invalid interval. Must be one of: 5minute, 10minute, hour, day, week"), [])
    else if !(valid_spans.contains span) then
      (.error (.query
        "Invalid span. Must be one of: day, week, month, 3month, year, 5year"), [])
    else
      let r :=
        match safe_call (ext sym interval span) with
        | .error e => .error e
        | .ok v => .ok (if v.isList then v else .list [])
      (r, [.historicals sym interval span])

/-- The second `try` block of `search_symbols` (tools.py lines 241–245): call
`find_instrument_data(query)`; a non-list result becomes `[]`; an exception
is wrapped as `RobinhoodError("Search failed: ...")`. -/
def searchFallback (q pArg : String) (fallback : String → Except String PyVal) :
    Except PyErr PyVal × List ExtCall :=
  match fallback q with
  | .ok v =>
    (.ok (if v.isList then v else .list []),
      [.instrumentsBySymbols pArg, .findInstrumentData q])
  | .error e =>
    (.error (.query ("Search failed: " ++ e)),
      [.instrumentsBySymbols pArg, .findInstrumentData q])

/-- `search_symbols` (tools.py lines 218–245): reject an empty query, strip
it, try `get_instruments_by_symbols(query.upper())` first and return its
result if it is a truthy list; on any exception or any other result fall
through to the fuzzy search on the stripped query. -/
def search_symbols (query : String)
    (primary fallback : String → Except String PyVal) :
    Except PyErr PyVal × List ExtCall :=
  if query = "" then
    (.error (.query "Query must be a non-empty string"), [])
  else
    let q := pyStripStr query
    let pArg := pyUpperStr q
    match primary pArg with
    | .ok v =>
      if pyTruthy v && v.isList then (.ok v, [.instrumentsBySymbols pArg])
      else searchFallback q pArg fallback
    | .error _ => searchFallback q pArg fallback

/-! ## auth.py -/

/-- `get_totp_code` (auth.py lines 17–32): a falsy secret (absent or empty)
yields no code; otherwise the TOTP generator (`pyotp`, modelled by the
oracle `gen`) is invoked, and its exceptions are wrapped as
`AuthenticationError("Failed to generate TOTP code: ...")`. -/
def get_totp_code (secret : Option String)
    (gen : String → Except String String) : Except PyErr (Option String) :=
  match secret with
  | Option.none => .ok Option.none
  | some s =>
    if s = "" then .ok Option.none
    else
      match gen s with
      | .ok code => .ok (some code)
      | .error e => .error (.auth ("Failed to generate TOTP code: " ++ e))

/-- Python's `arg or env` credential resolution (auth.py lines 60–62): a
truthy explicit argument wins, otherwise the environment value (possibly
absent) is used. -/
def resolveCred (arg env : Option String) : Option String :=
  match arg with
  | some s => if s = "" then env else some s
  | Option.none => env

/-- Python falsiness of an optional string (`not x`): absent or empty. -/
def falsyOpt : Option String → Bool
  | Option.none => true
  | some s => s == ""

/-- Outcome of a `login` run: the returned value or raised exception, plus
the external calls issued. -/
structure LoginOutcome where
  result : Except PyErr PyVal
  calls : List ExtCall

/-- `login` (auth.py lines 35–90): resolve username/password/TOTP secret from
argument-then-environment; fail if username or password is falsy; generate
the TOTP code; issue one external `rh.login` call (oracle `ext`, applied to
username, password and the optional code).  Inside the `try`, a falsy
response raises "Login returned empty result"; the `except` clause inspects
the lowercased exception text for "mfa"/"2fa" and re-raises accordingly. -/
def login (username password totp_secret : Option String)
    (envU envP envT : Option String)
    (gen : String → Except String String)
    (ext : String → String → Option String → Except String PyVal) :
    LoginOutcome :=
  let u := resolveCred username envU
  let p := resolveCred password envP
  let t := resolveCred totp_secret envT
  if falsyOpt u || falsyOpt p then
    ⟨.error (.auth
      "ROBINHOOD_USERNAME and ROBINHOOD_PASSWORD environment variables required"),
      []⟩
  else
    match get_totp_code t gen with
    | .error e => ⟨.error e, []⟩
    | .ok mfaCode =>
      let uu := u.getD ""
      let pp := p.getD ""
      let attempt : Except String PyVal :=
        match ext uu pp mfaCode with
        | .ok v => if pyTruthy v then .ok v else .error "Login returned empty result"
        | .error e => .error e
      match attempt with
      | .ok v => ⟨.ok v, [.loginCall uu pp mfaCode]⟩
      | .error e =>
        if strContains (pyLowerStr e) "mfa" || strContains (pyLowerStr e) "2fa" then
          ⟨.error (.auth
            "2FA required but ROBINHOOD_TOTP_SECRET not provided or invalid"),
            [.loginCall uu pp mfaCode]⟩
        else
          ⟨.error (.auth ("Login failed: " ++ e)), [.loginCall uu pp mfaCode]⟩

/-- `is_logged_in` (auth.py lines 101–112): probe `load_account_profile`;
true exactly on a non-null normal return, false on null or any exception. -/
def is_logged_in (probe : Except String PyVal) : Bool :=
  match probe with
  | .ok v => !v.isNone
  | .error _ => false

/-! ## server.py -/

/-- The process-lifetime login state of server.py (lines 38–40):
`_login_attempted` and `_login_error`. -/
structure ServerState where
  login_attempted : Bool
  login_error : Option String

/-- The state at process start (server.py lines 39–40). -/
def initialState : ServerState := ⟨false, Option.none⟩

/-- One invocation of `_ensure_logged_in`: the state afterwards, the outcome
(normal return or raised `RobinhoodError`), and whether this invocation
attempted a login. -/
structure EnsureStep where
  state : ServerState
  result : Except PyErr Unit
  attempted : Bool

/-- `_ensure_logged_in` (server.py lines 43–60): on the first invocation set
the attempted flag and run `login()`, caching the message of an
`AuthenticationError` (`loginOutcome` is that run's outcome); then raise
"Not logged in: ..." if an error is cached; then probe `is_logged_in` and
raise "Session expired..." if it fails. -/
def ensure_logged_in (st : ServerState) (loginOutcome : Except String Unit)
    (probe : Except String PyVal) : EnsureStep :=
  let first :=
    if st.login_attempted then (st, false)
    else
      match loginOutcome with
      | .ok _ => (⟨true, st.login_error⟩, true)
      | .error m => (⟨true, some m⟩, true)
  let st1 := first.1
  match st1.login_error with
  | some m => ⟨st1, .error (.query ("Not logged in: " ++ m)), first.2⟩
  | Option.none =>
    if is_logged_in probe then ⟨st1, .ok (), first.2⟩
    else ⟨st1, .error (.query "Session expired. Please restart the server."), first.2⟩

/-- A process lifetime: fold `_ensure_logged_in` over a sequence of accessor
invocations, each supplying that invocation's login and probe oracles.
Returns the final state, the per-invocation outcomes, and how many
invocations attempted a login. -/
def runEnsure : ServerState → List (Except String Unit × Except String PyVal) →
    ServerState × List (Except PyErr Unit) × Nat
  | st, [] => (st, [], 0)
  | st, (lo, pr) :: rest =>
    let step := ensure_logged_in st lo pr
    let (st', outs, n) := runEnsure step.state rest
    (st', step.result :: outs, (if step.attempted then 1 else 0) + n)

/-! ## Character and string lemmas -/

theorem char_toNat_ofNat_valid {n : Nat} (h : n.isValidChar) :
    (Char.ofNat n).toNat = n := by
  simp [Char.ofNat, h, Char.toNat, Char.ofNatAux, UInt32.toNat, UInt32.ofNatCore,
    BitVec.ofNatLt]

theorem pyCharUpper_toNat (c : Char) :
    (pyCharUpper c).toNat =
      if 97 ≤ c.toNat ∧ c.toNat ≤ 122 then c.toNat - 32 else c.toNat := by
  unfold pyCharUpper
  split
  · next h => exact char_toNat_ofNat_valid (Or.inl (by omega))
  · rfl

theorem pyCharUpper_of_not_lower {c : Char}
    (h : ¬(97 ≤ c.toNat ∧ c.toNat ≤ 122)) : pyCharUpper c = c := by
  simp only [pyCharUpper, if_neg h]

theorem pyCharUpper_idem (c : Char) :
    pyCharUpper (pyCharUpper c) = pyCharUpper c := by
  by_cases h : 97 ≤ c.toNat ∧ c.toNat ≤ 122
  · have ht : (pyCharUpper c).toNat = c.toNat - 32 := by
      rw [pyCharUpper_toNat, if_pos h]
    exact pyCharUpper_of_not_lower (by omega)
  · rw [pyCharUpper_of_not_lower h, pyCharUpper_of_not_lower h]

theorem pyIsSpace_iff (c : Char) :
    pyIsSpace c = true ↔
      (c.toNat = 32 ∨ c.toNat = 9 ∨ c.toNat = 10 ∨ c.toNat = 11 ∨
        c.toNat = 12 ∨ c.toNat = 13) := by
  simp [pyIsSpace]

theorem pyIsSpace_pyCharUpper (c : Char) :
    pyIsSpace (pyCharUpper c) = pyIsSpace c := by
  by_cases h : 97 ≤ c.toNat ∧ c.toNat ≤ 122
  · have ht : (pyCharUpper c).toNat = c.toNat - 32 := by
      rw [pyCharUpper_toNat, if_pos h]
    have h1 : pyIsSpace (pyCharUpper c) = false := by
      rw [← Bool.not_eq_true, pyIsSpace_iff]
      omega
    have h2 : pyIsSpace c = false := by
      rw [← Bool.not_eq_true, pyIsSpace_iff]
      omega
    rw [h1, h2]
  · rw [pyCharUpper_of_not_lower h]

theorem dropWhile_append_all (P : Char → Bool) {p : List Char} (l : List Char)
    (hp : ∀ a ∈ p, P a = true) : (p ++ l).dropWhile P = l.dropWhile P := by
  induction p with
  | nil => rfl
  | cons a as ih =>
    simp only [List.cons_append, List.dropWhile, hp a (List.mem_cons_self a as)]
    exact ih (fun x hx => hp x (List.mem_cons_of_mem a hx))

theorem dropWhile_append_of_ne_nil (P : Char → Bool) {t : List Char}
    (q : List Char) (h : t.dropWhile P ≠ []) :
    (t ++ q).dropWhile P = t.dropWhile P ++ q := by
  induction t with
  | nil => exact absurd rfl h
  | cons a as ih =>
    by_cases ha : P a
    · simp only [List.cons_append, List.dropWhile, ha] at *
      exact ih h
    · have ha' : P a = false := by revert ha; cases P a <;> simp
      simp only [List.cons_append, List.dropWhile, ha']
      rfl

theorem rdropWhile_append_all (P : Char → Bool) (l : List Char) {q : List Char}
    (hq : ∀ a ∈ q, P a = true) : (l ++ q).rdropWhile P = l.rdropWhile P := by
  simp only [List.rdropWhile, List.reverse_append]
  rw [dropWhile_append_all P l.reverse
    (fun x hx => hq x (List.mem_reverse.mp hx))]

theorem pyStripData_pad (p l q : List Char)
    (hp : ∀ a ∈ p, pyIsSpace a = true) (hq : ∀ a ∈ q, pyIsSpace a = true) :
    pyStripData (p ++ l ++ q) = pyStripData l := by
  unfold pyStripData
  rw [List.append_assoc, dropWhile_append_all pyIsSpace (l ++ q) hp]
  by_cases hln : List.dropWhile pyIsSpace l = []
  · have hl' : ∀ a ∈ l, pyIsSpace a = true := List.dropWhile_eq_nil_iff.mp hln
    rw [dropWhile_append_all pyIsSpace q hl',
      List.dropWhile_eq_nil_iff.mpr hq, hln]
  · rw [dropWhile_append_of_ne_nil pyIsSpace q hln,
      rdropWhile_append_all pyIsSpace _ hq]

theorem get_zero_append {m t X : List Char} (h : m ++ t = X)
    (hl : 0 < m.length) (h0 : 0 < X.length) :
    X.get ⟨0, h0⟩ = m.get ⟨0, hl⟩ := by
  subst h
  cases m with
  | nil => simp at hl
  | cons a m' => rfl

theorem pyStripData_idem (l : List Char) :
    pyStripData (pyStripData l) = pyStripData l := by
  unfold pyStripData
  set X := List.dropWhile pyIsSpace l with hXdef
  have hX : List.dropWhile pyIsSpace X = X := List.dropWhile_idempotent pyIsSpace l
  have hpre : List.rdropWhile pyIsSpace X <+: X :=
    List.rdropWhile_prefix (p := pyIsSpace) X
  have hA : List.dropWhile pyIsSpace (List.rdropWhile pyIsSpace X) =
      List.rdropWhile pyIsSpace X := by
    rw [List.dropWhile_eq_self_iff]
    intro hl
    obtain ⟨t, ht⟩ := hpre
    have h0 : 0 < X.length := by
      rw [← ht, List.length_append]; omega
    rw [← get_zero_append ht hl h0]
    exact List.dropWhile_eq_self_iff.mp hX h0
  rw [hA]
  exact List.rdropWhile_idempotent pyIsSpace X

theorem map_id_of_mem {α : Type} {f : α → α} :
    ∀ l : List α, (∀ a ∈ l, f a = a) → l.map f = l
  | [], _ => rfl
  | a :: t, h => by
    have h1 : f a = a := h a (List.mem_cons_self a t)
    have h2 := map_id_of_mem t (fun x hx => h x (List.mem_cons_of_mem a hx))
    simp [h1, h2]

theorem pyStripData_subset {l : List Char} {a : Char}
    (h : a ∈ pyStripData l) : a ∈ l := by
  unfold pyStripData at h
  have h1 :=
    ( List.rdropWhile_prefix (p := pyIsSpace)
      (l.dropWhile pyIsSpace)).sublist.subset h
  exact (List.dropWhile_sublist pyIsSpace).subset h1

theorem normalizeSymbol_variant (s t p q : String)
    (hp : ∀ a ∈ p.data, pyIsSpace a = true)
    (hq : ∀ a ∈ q.data, pyIsSpace a = true)
    (hcase : pyUpperStr t = pyUpperStr s) :
    normalizeSymbol (p ++ t ++ q) = normalizeSymbol s := by
  have hdata : pyUpperData t.data = pyUpperData s.data :=
    congrArg String.data hcase
  unfold normalizeSymbol pyStripStr pyUpperStr
  apply congrArg String.mk
  show pyStripData (pyUpperData (p ++ t ++ q).data) = pyStripData (pyUpperData s.data)
  rw [String.data_append, String.data_append]
  unfold pyUpperData
  rw [List.map_append, List.map_append]
  have hp' : ∀ a ∈ p.data.map pyCharUpper, pyIsSpace a = true := by
    intro a ha
    obtain ⟨b, hb, hba⟩ := List.mem_map.mp ha
    rw [← hba, pyIsSpace_pyCharUpper]
    exact hp b hb
  have hq' : ∀ a ∈ q.data.map pyCharUpper, pyIsSpace a = true := by
    intro a ha
    obtain ⟨b, hb, hba⟩ := List.mem_map.mp ha
    rw [← hba, pyIsSpace_pyCharUpper]
    exact hq b hb
  rw [pyStripData_pad _ _ _ hp' hq']
  unfold pyUpperData at hdata
  rw [hdata]

theorem normalizeSymbol_idem (s : String) :
    normalizeSymbol (normalizeSymbol s) = normalizeSymbol s := by
  unfold normalizeSymbol pyStripStr pyUpperStr
  apply congrArg String.mk
  show pyStripData (pyUpperData (pyStripData (pyUpperData s.data))) =
    pyStripData (pyUpperData s.data)
  have hm : pyUpperData (pyStripData (pyUpperData s.data)) =
      pyStripData (pyUpperData s.data) := by
    apply map_id_of_mem
    intro a ha
    have hau : a ∈ pyUpperData s.data := pyStripData_subset ha
    obtain ⟨b, _, hb⟩ := List.mem_map.mp hau
    rw [← hb]
    exact pyCharUpper_idem b
  rw [hm, pyStripData_idem]

theorem mentions_count {hay needle : String} (h : mentions hay needle)
    (c : Char) : needle.data.count c ≤ hay.data.count c := by
  obtain ⟨p, q, hpq⟩ := h
  rw [hpq, String.data_append, String.data_append, List.count_append,
    List.count_append]
  omega

theorem mentions_head (full head tail : String) (h : full = head ++ tail)
    (post : String) : mentions (full ++ post) head := by
  refine ⟨"", tail ++ post, ?_⟩
  rw [h, String.append_assoc]
  rfl

theorem mentions_of_split (full head tail : String) (h : full = head ++ tail) :
    mentions full head := by
  refine ⟨"", tail, ?_⟩
  rw [h]
  rfl

theorem pyStripData_all_space {l : List Char}
    (h : ∀ a ∈ l, pyIsSpace a = true) : pyStripData l = [] := by
  unfold pyStripData
  rw [List.dropWhile_eq_nil_iff.mpr h]
  rfl

theorem ensure_no_attempt (st : ServerState) (h : st.login_attempted = true)
    (lo : Except String Unit) (pr : Except String PyVal) :
    (ensure_logged_in st lo pr).state = st ∧
    (ensure_logged_in st lo pr).attempted = false := by
  cases he : st.login_error with
  | some m => constructor <;> simp [ensure_logged_in, h, he]
  | none =>
    by_cases hpr : is_logged_in pr <;>
      constructor <;> simp [ensure_logged_in, h, he, hpr]

theorem ensure_first_attempted (lo : Except String Unit)
    (pr : Except String PyVal) :
    (ensure_logged_in initialState lo pr).state.login_attempted = true := by
  cases lo with
  | error m => rfl
  | ok _ =>
    by_cases hpr : is_logged_in pr <;>
      simp [ensure_logged_in, initialState, hpr]

theorem runEnsure_no_attempt (st : ServerState) (h : st.login_attempted = true) :
    ∀ steps, (runEnsure st steps).2.2 = 0 := by
  intro steps
  induction steps with
  | nil => rfl
  | cons s rest ih =>
    obtain ⟨lo, pr⟩ := s
    obtain ⟨hst, hat⟩ := ensure_no_attempt st h lo pr
    simp only [runEnsure, hst, hat, ih, if_false]
    simp [ih]

theorem runEnsure_not_logged_in (m : String) :
    ∀ steps, runEnsure ⟨true, some m⟩ steps =
      (⟨true, some m⟩,
        steps.map (fun _ => .error (.query ("Not logged in: " ++ m))), 0) := by
  intro steps
  induction steps with
  | nil => rfl
  | cons s rest ih =>
    obtain ⟨lo, pr⟩ := s
    have hstep : ensure_logged_in ⟨true, some m⟩ lo pr =
        ⟨⟨true, some m⟩, .error (.query ("Not logged in: " ++ m)), false⟩ := rfl
    simp only [runEnsure, hstep, ih]
    rfl

/-! ## Claims -/

/-- C1 counterexample: a null external result is not treated like the other
non-list values — `_safe_call` raises on it, so the watchlist accessor
raises a QueryError instead of returning the empty list. -/
theorem C1_counterexample :
    (get_watchlist "Default" (fun _ => .ok PyVal.none)).1 =
      .error (.query "API returned None - you may need to login first") ∧
    (get_watchlist "Default" (fun _ => .ok PyVal.none)).1 ≠
      .ok (PyVal.list []) := by
  refine ⟨rfl, ?_⟩
  intro h
  exact Except.noConfusion h

/-- C1 (amended): for every external-result value that is neither a list nor
null, the watchlist accessor called with any name returns an empty list and
never raises; a null external result instead raises the `_safe_call`
QueryError. -/
theorem C1_watchlist_nonlist (name : String) (v : PyVal)
    (hv : v.isList = false) (hn : v.isNone = false) :
    (get_watchlist name (fun _ => .ok v)).1 = .ok (PyVal.list []) ∧
    (get_watchlist name (fun _ => .ok PyVal.none)).1 =
      .error (.query "API returned None - you may need to login first") := by
  constructor
  · simp [get_watchlist, safe_call, hn, hv]
  · rfl

/-- C1 witness: the amended statement at name "Default" and the non-list,
non-null external result `"x"`. -/
theorem C1_witness :
    (get_watchlist "Default" (fun _ => .ok (PyVal.str "x"))).1 =
      .ok (PyVal.list []) ∧
    (get_watchlist "Default" (fun _ => .ok PyVal.none)).1 =
      .error (.query "API returned None - you may need to login first") :=
  C1_watchlist_nonlist "Default" (PyVal.str "x") rfl rfl

/-- C6: for every non-empty symbol the quote accessor returns the first
element of a non-empty external result list, and on an empty external
result list raises a QueryError whose message contains "No quote found". -/
theorem C6_quote_first_or_error (symbol : String) (hs : ¬ symbol = "")
    (x : PyVal) (xs : List PyVal) :
    (get_quote symbol (fun _ => .ok (PyVal.list (x :: xs)))).1 = .ok x ∧
    (get_quote symbol (fun _ => .ok (PyVal.list []))).1 =
      .error (.query ("No quote found for symbol: " ++ normalizeSymbol symbol)) ∧
    mentions ("No quote found for symbol: " ++ normalizeSymbol symbol)
      "No quote found" := by
  refine ⟨?_, ?_, ?_⟩
  · simp [get_quote, hs, safe_call, PyVal.isNone]
  · simp [get_quote, hs, safe_call, PyVal.isNone]
  · exact mentions_head _ "No quote found" " for symbol: " (by decide) _

/-- C6 witness: the statement at symbol "aapl" with external results
`[{}]` and `[]`. -/
theorem C6_witness :
    (get_quote "aapl" (fun _ => .ok (PyVal.list (PyVal.dict [] :: [])))).1 =
      .ok (PyVal.dict []) ∧
    (get_quote "aapl" (fun _ => .ok (PyVal.list []))).1 =
      .error (.query ("No quote found for symbol: " ++ normalizeSymbol "aapl")) ∧
    mentions ("No quote found for symbol: " ++ normalizeSymbol "aapl")
      "No quote found" :=
  C6_quote_first_or_error "aapl" (by decide) (PyVal.dict []) []

/-- C7 counterexample: with the empty symbol and an invalid interval the
accessor raises the symbol-validation QueryError, whose message does not
mention "Invalid interval" — the claim's "independent of symbol validity"
fails for a symbol that fails the non-empty check. -/
theorem C7_counterexample :
    (get_historicals "" "invalid" "month"
        (fun _ _ _ => .ok (PyVal.list []))).1 =
      .error (.query "Symbol must be a non-empty string") ∧
    ¬ mentions "Symbol must be a non-empty string" "Invalid interval" := by
  constructor
  · rfl
  · intro h
    have hc := mentions_count h 'I'
    have h1 : ("Invalid interval").data.count 'I' = 1 := by decide
    have h2 : ("Symbol must be a non-empty string").data.count 'I' = 0 := by decide
    rw [h1, h2] at hc
    omega

/-- C7 (amended): for every symbol passing the non-empty validation, an
interval outside the whitelist raises a QueryError mentioning
"Invalid interval" and a span outside the whitelist (with a valid interval)
raises a QueryError mentioning "Invalid span", in both cases without
issuing the external call; when both are invalid the interval error wins,
and an empty symbol fails the symbol validation first. -/
theorem C7_historicals_enum (symbol interval span : String)
    (hs : ¬ symbol = "")
    (ext : String → String → String → Except String PyVal) :
    (valid_intervals.contains interval = false →
      get_historicals symbol interval span ext =
        (.error (.query
          "Invalid interval. Must be one of: 5minute, 10minute, hour, day, week"),
          []) ∧
      mentions "Invalid interval. Must be one of: 5minute, 10minute, hour, day, week"
        "Invalid interval") ∧
    (valid_intervals.contains interval = true →
      valid_spans.contains span = false →
      get_historicals symbol interval span ext =
        (.error (.query
          "Invalid span. Must be one of: day, week, month, 3month, year, 5year"),
          []) ∧
      mentions "Invalid span. Must be one of: day, week, month, 3month, year, 5year"
        "Invalid span") := by
  constructor
  · intro hi
    have hi' : ¬ interval ∈ valid_intervals := by simpa using hi
    refine ⟨?_, mentions_of_split _ "Invalid interval"
      ". Must be one of: 5minute, 10minute, hour, day, week" (by decide)⟩
    simp [get_historicals, hs, hi']
  · intro hi hsp
    have hi' : interval ∈ valid_intervals := by simpa using hi
    have hsp' : ¬ span ∈ valid_spans := by simpa using hsp
    refine ⟨?_, mentions_of_split _ "Invalid span"
      ". Must be one of: day, week, month, 3month, year, 5year" (by decide)⟩
    simp [get_historicals, hs, hi', hsp']

/-- C7 witness: the amended statement at symbol "AAPL", interval "invalid"
(first part) and at interval "day", span "invalid" (second part). -/
theorem C7_witness :
    ((valid_intervals.contains "invalid" = false →
      get_historicals "AAPL" "invalid" "month" (fun _ _ _ => .ok (PyVal.list [])) =
        (.error (.query
          "Invalid interval. Must be one of: 5minute, 10minute, hour, day, week"),
          []) ∧
      mentions "Invalid interval. Must be one of: 5minute, 10minute, hour, day, week"
        "Invalid interval") ∧
    (valid_intervals.contains "invalid" = true →
      valid_spans.contains "month" = false →
      get_historicals "AAPL" "invalid" "month" (fun _ _ _ => .ok (PyVal.list [])) =
        (.error (.query
          "Invalid span. Must be one of: day, week, month, 3month, year, 5year"),
          []) ∧
      mentions "Invalid span. Must be one of: day, week, month, 3month, year, 5year"
        "Invalid span")) ∧
    ((valid_intervals.contains "day" = false →
      get_historicals "AAPL" "day" "invalid" (fun _ _ _ => .ok (PyVal.list [])) =
        (.error (.query
          "Invalid interval. Must be one of: 5minute, 10minute, hour, day, week"),
          []) ∧
      mentions "Invalid interval. Must be one of: 5minute, 10minute, hour, day, week"
        "Invalid interval") ∧
    (valid_intervals.contains "day" = true →
      valid_spans.contains "invalid" = false →
      get_historicals "AAPL" "day" "invalid" (fun _ _ _ => .ok (PyVal.list [])) =
        (.error (.query
          "Invalid span. Must be one of: day, week, month, 3month, year, 5year"),
          []) ∧
      mentions "Invalid span. Must be one of: day, week, month, 3month, year, 5year"
        "Invalid span")) :=
  ⟨C7_historicals_enum "AAPL" "invalid" "month" (by decide) _,
   C7_historicals_enum "AAPL" "day" "invalid" (by decide) _⟩

/-- C8: `is_logged_in` never raises — it is a total Boolean: false on any
probe exception and on a null probe result, true exactly when the probe
succeeds with a non-null value. -/
theorem C8_is_logged_in_total (probe : Except String PyVal) :
    (∀ e, probe = .error e → is_logged_in probe = false) ∧
    (probe = .ok PyVal.none → is_logged_in probe = false) ∧
    (is_logged_in probe = true ↔ ∃ v, probe = .ok v ∧ v.isNone = false) := by
  refine ⟨?_, ?_, ?_⟩
  · intro e he
    rw [he]
    rfl
  · intro he
    rw [he]
    rfl
  · constructor
    · intro h
      cases probe with
      | error e => simp [is_logged_in] at h
      | ok v =>
        refine ⟨v, rfl, ?_⟩
        simp [is_logged_in] at h
        exact h
    · rintro ⟨v, hv, hn⟩
      rw [hv]
      simp [is_logged_in, hn]

/-- C8 witness: the statement applied at a raising probe and at a non-null
probe result. -/
theorem C8_witness :
    is_logged_in (.error "network down") = false ∧
    is_logged_in (.ok (PyVal.dict [])) = true :=
  ⟨(C8_is_logged_in_total (.error "network down")).1 "network down" rfl,
   (C8_is_logged_in_total (.ok (PyVal.dict []))).2.2.mpr
     ⟨PyVal.dict [], rfl, rfl⟩⟩

/-- C2: for every non-empty query the primary exact lookup (on the
uppercased stripped query) is always attempted first; whenever the primary
attempt raises or returns an empty or non-list result (`hbad` — vacuously
true when it raises), the fallback fuzzy search is also attempted and the
caller's observation is determined by the fallback outcome alone: its list
result is returned (a non-list result becoming `[]`), and only a fallback
exception is surfaced, wrapped as the QueryError "Search failed: ...". -/
theorem C2_search_primary_then_fallback (query : String) (hq : ¬ query = "")
    (primary fallback : String → Except String PyVal)
    (hbad : ∀ v, primary (pyUpperStr (pyStripStr query)) = .ok v →
      (pyTruthy v && v.isList) = false) :
    (search_symbols query primary fallback).2.head? =
      some (ExtCall.instrumentsBySymbols (pyUpperStr (pyStripStr query))) ∧
    (search_symbols query primary fallback).2 =
      [ExtCall.instrumentsBySymbols (pyUpperStr (pyStripStr query)),
        ExtCall.findInstrumentData (pyStripStr query)] ∧
    (search_symbols query primary fallback).1 =
      (match fallback (pyStripStr query) with
        | .ok v => .ok (if v.isList then v else PyVal.list [])
        | .error e => .error (.query ("Search failed: " ++ e))) := by
  have hmain : search_symbols query primary fallback =
      searchFallback (pyStripStr query) (pyUpperStr (pyStripStr query)) fallback := by
    unfold search_symbols
    rw [if_neg hq]
    cases hp : primary (pyUpperStr (pyStripStr query)) with
    | error e => simp [hp]
    | ok v => simp [hp, hbad v hp]
  rw [hmain]
  unfold searchFallback
  cases hf : fallback (pyStripStr query) with
  | error e => exact ⟨rfl, rfl, rfl⟩
  | ok v => exact ⟨rfl, rfl, rfl⟩

/-- C2 witness: the statement at query " ibm " whose primary lookup raises;
the fallback's list result is what the caller observes. -/
theorem C2_witness :
    (search_symbols " ibm "
        (fun _ => .error "boom")
        (fun _ => .ok (PyVal.list [PyVal.str "IBM"]))).2.head? =
      some (ExtCall.instrumentsBySymbols (pyUpperStr (pyStripStr " ibm "))) ∧
    (search_symbols " ibm "
        (fun _ => .error "boom")
        (fun _ => .ok (PyVal.list [PyVal.str "IBM"]))).2 =
      [ExtCall.instrumentsBySymbols (pyUpperStr (pyStripStr " ibm ")),
        ExtCall.findInstrumentData (pyStripStr " ibm ")] ∧
    (search_symbols " ibm "
        (fun _ => .error "boom")
        (fun _ => .ok (PyVal.list [PyVal.str "IBM"]))).1 =
      (match (fun (_ : String) => Except.ok (PyVal.list [PyVal.str "IBM"]))
          (pyStripStr " ibm ") with
        | .ok v => .ok (if v.isList then v else PyVal.list [])
        | .error e => .error (.query ("Search failed: " ++ e))) :=
  C2_search_primary_then_fallback " ibm " (by decide)
    (fun _ => .error "boom") (fun _ => .ok (PyVal.list [PyVal.str "IBM"]))
    (fun v hv => Except.noConfusion hv)

/-- C4: with resolvable credentials and no TOTP secret, an exception from
the external login call whose lowercased text contains "mfa" or "2fa"
yields the specific two-factor AuthError, any other exception yields the
generic "Login failed: ..." AuthError, and a falsy (empty/null) response
also yields a generic login-failure AuthError. -/
theorem C4_login_error_translation (u p : String) (hu : ¬ u = "")
    (hp : ¬ p = "") (envU envP : Option String)
    (gen : String → Except String String) (e : String) (v : PyVal)
    (hv : pyTruthy v = false) :
    (login (some u) (some p) Option.none envU envP Option.none gen
        (fun _ _ _ => .error e)).result =
      (if strContains (pyLowerStr e) "mfa" || strContains (pyLowerStr e) "2fa" then
        .error (.auth "2FA required but ROBINHOOD_TOTP_SECRET not provided or invalid")
      else .error (.auth ("Login failed: " ++ e))) ∧
    (login (some u) (some p) Option.none envU envP Option.none gen
        (fun _ _ _ => .ok v)).result =
      .error (.auth "Login failed: Login returned empty result") := by
  have hu' : (u == "") = false := beq_eq_false_iff_ne.mpr hu
  have hp' : (p == "") = false := beq_eq_false_iff_ne.mpr hp
  constructor
  · by_cases hc : (strContains (pyLowerStr e) "mfa" ||
        strContains (pyLowerStr e) "2fa") = true
    · simp [login, resolveCred, falsyOpt, hu, hp, hu', hp', get_totp_code, hc]
    · simp [login, resolveCred, falsyOpt, hu, hp, hu', hp', get_totp_code, hc]
  · have hm : (strContains (pyLowerStr "Login returned empty result") "mfa" ||
        strContains (pyLowerStr "Login returned empty result") "2fa") = false := by
      decide
    simp [login, resolveCred, falsyOpt, hu, hp, hu', hp', get_totp_code, hv, hm]

/-- C4 witness: the statement at an "MFA required" exception and a null
response. -/
theorem C4_witness :
    (login (some "user") (some "pw") Option.none Option.none Option.none
        Option.none (fun _ => .error "x") (fun _ _ _ => .error "MFA required.")).result =
      (if strContains (pyLowerStr "MFA required.") "mfa" ||
          strContains (pyLowerStr "MFA required.") "2fa" then
        .error (.auth "2FA required but ROBINHOOD_TOTP_SECRET not provided or invalid")
      else .error (.auth ("Login failed: " ++ "MFA required."))) ∧
    (login (some "user") (some "pw") Option.none Option.none Option.none
        Option.none (fun _ => .error "x") (fun _ _ _ => .ok PyVal.none)).result =
      .error (.auth "Login failed: Login returned empty result") :=
  C4_login_error_translation "user" "pw" (by decide) (by decide)
    Option.none Option.none (fun _ => .error "x") "MFA required." PyVal.none rfl

/-- C5: each credential is resolved from the explicit argument first and
from the environment only when the argument is absent or empty; whenever
neither source yields a username or neither yields a password, login raises
the AuthError naming both environment variables without issuing any
external call. -/
theorem C5_login_missing_credentials
    (username password totp envU envP envT : Option String)
    (gen : String → Except String String)
    (ext : String → String → Option String → Except String PyVal)
    (hmiss : (falsyOpt (resolveCred username envU) ||
      falsyOpt (resolveCred password envP)) = true) :
    (login username password totp envU envP envT gen ext).result =
      .error (.auth
        "ROBINHOOD_USERNAME and ROBINHOOD_PASSWORD environment variables required") ∧
    (login username password totp envU envP envT gen ext).calls = [] ∧
    mentions
      "ROBINHOOD_USERNAME and ROBINHOOD_PASSWORD environment variables required"
      "ROBINHOOD_USERNAME" ∧
    mentions
      "ROBINHOOD_USERNAME and ROBINHOOD_PASSWORD environment variables required"
      "ROBINHOOD_PASSWORD" ∧
    (∀ s : String, ¬ s = "" → ∀ env, resolveCred (some s) env = some s) ∧
    (∀ env, resolveCred Option.none env = env) ∧
    (∀ env, resolveCred (some "") env = env) := by
  refine ⟨?_, ?_, ?_, ?_, ?_, fun env => rfl, fun env => by simp [resolveCred]⟩
  · simp [login, hmiss]
  · simp [login, hmiss]
  · exact mentions_of_split _ "ROBINHOOD_USERNAME"
      " and ROBINHOOD_PASSWORD environment variables required" (by decide)
  · refine ⟨"ROBINHOOD_USERNAME and ", " environment variables required", ?_⟩
    decide
  · intro s hs env
    simp [resolveCred, hs]

/-- C5 witness: the statement with no username from either source and a
password present. -/
theorem C5_witness :
    (login Option.none (some "pw") Option.none Option.none Option.none
        Option.none (fun _ => .error "x")
        (fun _ _ _ => .ok (PyVal.dict []))).result =
      .error (.auth
        "ROBINHOOD_USERNAME and ROBINHOOD_PASSWORD environment variables required") ∧
    (login Option.none (some "pw") Option.none Option.none Option.none
        Option.none (fun _ => .error "x")
        (fun _ _ _ => .ok (PyVal.dict []))).calls = [] ∧
    mentions
      "ROBINHOOD_USERNAME and ROBINHOOD_PASSWORD environment variables required"
      "ROBINHOOD_USERNAME" ∧
    mentions
      "ROBINHOOD_USERNAME and ROBINHOOD_PASSWORD environment variables required"
      "ROBINHOOD_PASSWORD" ∧
    (∀ s : String, ¬ s = "" → ∀ env, resolveCred (some s) env = some s) ∧
    (∀ env, resolveCred Option.none env = env) ∧
    (∀ env, resolveCred (some "") env = env) :=
  C5_login_missing_credentials Option.none (some "pw") Option.none
    Option.none Option.none Option.none (fun _ => .error "x")
    (fun _ _ _ => .ok (PyVal.dict [])) (by decide)

/-- C3: from process start, any run of serving-layer invocations attempts
login at most once; on a run whose first invocation's login attempt fails
with message m, login is attempted exactly once (on that first invocation),
the message is cached, and every invocation — the first included — raises
the query-kind error "Not logged in: m" without any further login attempt. -/
theorem C3_login_attempted_once (m : String) (pr0 : Except String PyVal)
    (steps : List (Except String Unit × Except String PyVal)) :
    (runEnsure initialState ((Except.error m, pr0) :: steps)).2.2 = 1 ∧
    (runEnsure initialState ((Except.error m, pr0) :: steps)).1 =
      ⟨true, some m⟩ ∧
    (∀ r ∈ (runEnsure initialState ((Except.error m, pr0) :: steps)).2.1,
      r = .error (.query ("Not logged in: " ++ m))) ∧
    (∀ steps' : List (Except String Unit × Except String PyVal),
      (runEnsure initialState steps').2.2 ≤ 1) := by
  have hfirst : ensure_logged_in initialState (Except.error m) pr0 =
      ⟨⟨true, some m⟩, .error (.query ("Not logged in: " ++ m)), true⟩ := rfl
  have hrun : runEnsure initialState ((Except.error m, pr0) :: steps) =
      (⟨true, some m⟩,
        .error (.query ("Not logged in: " ++ m)) ::
          steps.map (fun _ => .error (.query ("Not logged in: " ++ m))), 1) := by
    simp only [runEnsure, hfirst, runEnsure_not_logged_in m steps]
    simp
  refine ⟨by rw [hrun], by rw [hrun], ?_, ?_⟩
  · rw [hrun]
    intro r hr
    rcases List.mem_cons.mp hr with h | h
    · exact h
    · obtain ⟨_, _, hx⟩ := List.mem_map.mp h
      exact hx.symm
  · intro steps'
    cases steps' with
    | nil => exact Nat.zero_le 1
    | cons s rest =>
      obtain ⟨lo, pr⟩ := s
      have hat := ensure_first_attempted lo pr
      have hrest := runEnsure_no_attempt _ hat rest
      simp only [runEnsure, hrest]
      split <;> omega

/-- C3 witness: the statement at a failed login with message "bad creds"
followed by one further invocation. -/
theorem C3_witness :
    (runEnsure initialState ((Except.error "bad creds", Except.ok PyVal.none) ::
        [(Except.ok (), Except.ok (PyVal.dict []))])).2.2 = 1 ∧
    (runEnsure initialState ((Except.error "bad creds", Except.ok PyVal.none) ::
        [(Except.ok (), Except.ok (PyVal.dict []))])).1 = ⟨true, some "bad creds"⟩ ∧
    (∀ r ∈ (runEnsure initialState
        ((Except.error "bad creds", Except.ok PyVal.none) ::
          [(Except.ok (), Except.ok (PyVal.dict []))])).2.1,
      r = .error (.query ("Not logged in: " ++ "bad creds"))) ∧
    (∀ steps' : List (Except String Unit × Except String PyVal),
      (runEnsure initialState steps').2.2 ≤ 1) :=
  C3_login_attempted_once "bad creds" (Except.ok PyVal.none)
    [(Except.ok (), Except.ok (PyVal.dict []))]

/-- C9: every mixed-case, whitespace-padded variant of a symbol is mapped by
the quote accessor to the same normalized symbol passed to the external
call, and the normalization `upper-then-strip` is idempotent. -/
theorem C9_normalization (s t p q : String)
    (hp : p.data.all pyIsSpace = true) (hq : q.data.all pyIsSpace = true)
    (hcase : pyUpperStr t = pyUpperStr s) (hs : ¬ s = "")
    (hv : ¬ (p ++ t ++ q : String) = "")
    (ext : String → Except String PyVal) :
    (get_quote (p ++ t ++ q) ext).2 = [ExtCall.quotes (normalizeSymbol s)] ∧
    (get_quote s ext).2 = [ExtCall.quotes (normalizeSymbol s)] ∧
    (get_quote (p ++ t ++ q) ext).1 = (get_quote s ext).1 ∧
    (∀ w : String, normalizeSymbol (normalizeSymbol w) = normalizeSymbol w) := by
  have hvar : normalizeSymbol (p ++ t ++ q) = normalizeSymbol s :=
    normalizeSymbol_variant s t p q
      (fun a ha => by
        have := List.all_eq_true.mp hp a ha
        simpa using this)
      (fun a ha => by
        have := List.all_eq_true.mp hq a ha
        simpa using this)
      hcase
  refine ⟨?_, ?_, ?_, fun w => normalizeSymbol_idem w⟩
  · simp [get_quote, hv, hvar]
  · simp [get_quote, hs]
  · simp [get_quote, hv, hs, hvar]

/-- C9 witness: the statement at symbol "ab" and its padded mixed-case
variant " aB ". -/
theorem C9_witness :
    (get_quote (" " ++ "aB" ++ " ") (fun _ => .ok (PyVal.list []))).2 =
      [ExtCall.quotes (normalizeSymbol "ab")] ∧
    (get_quote "ab" (fun _ => .ok (PyVal.list []))).2 =
      [ExtCall.quotes (normalizeSymbol "ab")] ∧
    (get_quote (" " ++ "aB" ++ " ") (fun _ => .ok (PyVal.list []))).1 =
      (get_quote "ab" (fun _ => .ok (PyVal.list []))).1 ∧
    (∀ w : String, normalizeSymbol (normalizeSymbol w) = normalizeSymbol w) :=
  C9_normalization "ab" "aB" " " " " (by decide) (by decide) (by decide)
    (by decide) (by decide) (fun _ => .ok (PyVal.list []))

/-- C10: a whitespace-only (hence non-empty) symbol or query passes the
non-empty validation — the check precedes trimming — so the quote accessor
invokes its external call with the empty string, and symbol search attempts
its primary lookup on the empty string. -/
theorem C10_whitespace_only_passes (s : String) (hne : ¬ s = "")
    (hws : s.data.all pyIsSpace = true)
    (ext primary fallback : String → Except String PyVal) :
    pyStripStr s = "" ∧
    normalizeSymbol s = "" ∧
    (get_quote s ext).2 = [ExtCall.quotes ""] ∧
    (search_symbols s primary fallback).2.head? =
      some (ExtCall.instrumentsBySymbols "") := by
  have hws' : ∀ a ∈ s.data, pyIsSpace a = true := fun a ha => by
    have := List.all_eq_true.mp hws a ha
    simpa using this
  have hstrip : pyStripStr s = "" := by
    unfold pyStripStr
    rw [pyStripData_all_space hws']
  have hnorm : normalizeSymbol s = "" := by
    unfold normalizeSymbol pyStripStr pyUpperStr
    apply congrArg String.mk
    show pyStripData (pyUpperData s.data) = ("" : String).data
    rw [pyStripData_all_space (fun a ha => by
      obtain ⟨b, hb, hba⟩ := List.mem_map.mp ha
      rw [← hba, pyIsSpace_pyCharUpper]
      exact hws' b hb)]
  have hupper : pyUpperStr (pyStripStr s) = "" := by
    rw [hstrip]
    rfl
  refine ⟨hstrip, hnorm, ?_, ?_⟩
  · simp [get_quote, hne, hnorm]
  · unfold search_symbols
    rw [if_neg hne]
    simp only [hstrip]
    have h2 : pyUpperStr "" = "" := rfl
    simp only [h2]
    cases hpv : primary "" with
    | error e => simp [hpv, searchFallback]; cases fallback "" <;> simp
    | ok v =>
      by_cases hgood : (pyTruthy v && v.isList) = true
      · simp [hpv, hgood]
      · simp only [Bool.not_eq_true] at hgood
        simp only [hpv, hgood]
        simp [searchFallback]
        cases fallback "" <;> simp

/-- C10 witness: the statement at the three-space symbol. -/
theorem C10_witness :
    pyStripStr "   " = "" ∧
    normalizeSymbol "   " = "" ∧
    (get_quote "   " (fun _ => .ok (PyVal.list []))).2 = [ExtCall.quotes ""] ∧
    (search_symbols "   " (fun _ => .error "boom")
        (fun _ => .ok (PyVal.list []))).2.head? =
      some (ExtCall.instrumentsBySymbols "") :=
  C10_whitespace_only_passes "   " (by decide) (by decide)
    (fun _ => .ok (PyVal.list [])) (fun _ => .error "boom")
    (fun _ => .ok (PyVal.list []))

end RobinhoodMCP
